import Mathlib

/-!
Shallow embedding of the stuck-writeback workaround daemon.

The program is a decision loop: it scans for root-owned kworker processes
whose name matches a glob, compares the age of the oldest match against a
runtime threshold, triggers a filesystem sync when the threshold is
exceeded, and otherwise waits (event-driven, with a safety-net timeout)
for a matching process to appear.

Time is modelled in integer seconds: wall-clock timestamps are `Int`
(mirroring `chrono::DateTime`, with `signed_duration_since` as integer
subtraction), signed durations (`chrono::Duration`) are `Int`, and
unsigned durations (`std::time::Duration`) are `Nat`.  Glob matching is an
external crate treated as a black box by the design, so the matcher is a
function parameter `gm : String → String → Bool`.  Errors are modelled as
`Except String`; `anyhow`'s `.context(msg)` is modelled as prefixing
`msg ++ ": "` to the underlying error text.
-/

/-- `BUSY_POLLING` from main.rs: 1 second, used when a match exists below
the threshold. -/
def BUSY_POLLING : Nat := 1

/-- `IDLE_POLLING` from main.rs: 60 seconds, the back-off the driver loop
applies after an error. -/
def IDLE_POLLING : Nat := 60

/-- `MAX_MONITOR_DURATION` from main.rs: 60 seconds, the safety-net bound
passed to the event wait. -/
def MAX_MONITOR_DURATION : Nat := 60

/-- `EXPECTED_RECOVERY_TIME` from main.rs: 30 seconds, the pause after a
sync is triggered. -/
def EXPECTED_RECOVERY_TIME : Nat := 30

/-- `ProcInfo` from system.rs: the per-process snapshot record. -/
structure ProcInfo where
  uid : Nat
  starttime : Int
  comm : String
  deriving DecidableEq

/-- The fields of a procfs `stat` read that `to_proc_info` uses.  The
start-time conversion (`stat.starttime().get()`) is fallible, hence
`Option`. -/
structure Stat where
  comm : String
  starttime : Option Int
  deriving DecidableEq

/-- A handle to one process during a scan.  Reading `stat` or `uid` can
fail (the process may have exited mid-scan), hence the `Option` fields. -/
structure Process where
  stat : Option Stat
  uid : Option Nat
  deriving DecidableEq

/-- `to_proc_info` from system.rs: reads stat, uid and start time in that
order, failing (returning `none`) if any read fails. -/
def to_proc_info (p : Process) : Option ProcInfo :=
  match p.stat with
  | none => none
  | some stat =>
    match p.uid with
    | none => none
    | some uid =>
      match stat.starttime with
      | none => none
      | some st => some ⟨uid, st, stat.comm⟩

/-- `Result::ok` as used in `filter_map(Result::ok)`. -/
def exceptOk {ε α : Type} : Except ε α → Option α
  | .ok a => some a
  | .error _ => none

/-- One fold step of `min_by_key(|p| p.starttime)`: keep the current best
unless the new element's key is strictly smaller (Rust's `min_by_key`
returns the first of equally-minimal elements). -/
def min_step (best q : ProcInfo) : ProcInfo :=
  if q.starttime < best.starttime then q else best

/-- `Iterator::min_by_key(|p| p.starttime)` over a list. -/
def min_by_starttime : List ProcInfo → Option ProcInfo
  | [] => none
  | p :: ps => some (ps.foldl min_step p)

/-- The readable records of a scan: enumeration entries whose handle was
obtained (`filter_map(Result::ok)`) and whose metadata could be read
(`filter_map(|p| to_proc_info(p).ok())`). -/
def readable (table : List (Except String Process)) : List ProcInfo :=
  (table.filterMap exceptOk).filterMap to_proc_info

/-- `LiveSystem::find_oldest_kworker` from system.rs.  The argument
`table` is the outcome of `all_processes()`: either an enumeration-level
failure, or a list of per-process results. -/
def LiveSystem.find_oldest_kworker (table : Except String (List (Except String Process)))
    (is_kworker : ProcInfo → Bool) : Except String (Option ProcInfo) :=
  match table with
  | .error e => .error ("failed to list all processes: " ++ e)
  | .ok processes =>
    .ok (min_by_starttime
      (((processes.filterMap exceptOk).filterMap to_proc_info).filter is_kworker))

/-- `cnproc::PidEvent`, restricted to the shapes the code distinguishes. -/
inductive PidEvent where
  | Exec (process_pid : Int)
  | Fork (child_pid : Int)
  | Other
  deriving DecidableEq

/-- The pid extraction `match event` in `wait_for_kworker`; `none` models
the `_ => continue` arm. -/
def event_pid : PidEvent → Option Int
  | .Exec process_pid => some process_pid
  | .Fork child_pid => some child_pid
  | .Other => none

/-- The nested `if let` chain of `wait_for_kworker`: resolve the pid to a
process (`Process::new`), read its metadata (`to_proc_info`), and apply
the predicate; any failure falls through to the next loop iteration. -/
def resolves_to_kworker (lookup : Int → Option Process) (is_kworker : ProcInfo → Bool)
    (pid : Int) : Bool :=
  match lookup pid with
  | none => false
  | some proc =>
    match to_proc_info proc with
    | none => false
    | some info => is_kworker info

/-- One iteration of the `wait_for_kworker` loop, as seen by the code:
the value of `start.elapsed()` at the top of the iteration, and the
outcome of the following `monitor.recv()`.  `recv = none` models a
receive that never completes (no further events arrive; the netlink
receive blocks with no timeout of its own). -/
structure MonitorStep where
  elapsed : Nat
  recv : Option (Except String PidEvent)

/-- The `loop` of `LiveSystem::wait_for_kworker`, over a trace of loop
iterations.  Result `none` means the loop never returns (it is blocked in
a receive when the trace provides no further completed receive). -/
def LiveSystem.wait_loop (lookup : Int → Option Process)
    (is_kworker : ProcInfo → Bool) (timeout : Nat) :
    List MonitorStep → Option (Except String Unit)
  | [] => none
  | s :: rest =>
    if timeout ≤ s.elapsed then
      some (.ok ())
    else
      match s.recv with
      | none => none
      | some (.error e) =>
        some (.error ("failed to receive process event from kernel: " ++ e))
      | some (.ok ev) =>
        match event_pid ev with
        | none => LiveSystem.wait_loop lookup is_kworker timeout rest
        | some pid =>
          if resolves_to_kworker lookup is_kworker pid then some (.ok ())
          else LiveSystem.wait_loop lookup is_kworker timeout rest

/-- `LiveSystem::wait_for_kworker` from system.rs: first create the
process event monitor (`PidMonitor::new()`, which can fail and is
reported with its own context), then run the receive loop.  `monitor` is
the outcome of the creation step; its payload carries no information
beyond success, the received events being the `steps` trace. -/
def LiveSystem.wait_for_kworker (monitor : Except String Unit)
    (lookup : Int → Option Process) (is_kworker : ProcInfo → Bool) (timeout : Nat)
    (steps : List MonitorStep) : Option (Except String Unit) :=
  match monitor with
  | .error e =>
    some (.error ("failed to create process event monitor (cnproc): " ++ e))
  | .ok _ => LiveSystem.wait_loop lookup is_kworker timeout steps

/-- Whether every receive in a trace completes without a channel error
(the subscription stays usable). -/
def no_recv_error (steps : List MonitorStep) : Bool :=
  steps.all fun s =>
    match s.recv with
    | some (.error _) => false
    | _ => true

/-- The `System` trait of system.rs, as one decision cycle observes it:
the result of `find_oldest_kworker` for a given predicate, the current
time, and the result of `wait_for_kworker` for a given predicate and
timeout.  `sync` has no observable return value; its invocations are
counted in `Effects`. -/
structure System where
  find_oldest_kworker : (ProcInfo → Bool) → Except String (Option ProcInfo)
  now : Int
  wait_for_kworker : (ProcInfo → Bool) → Nat → Except String Unit

/-- The side effects of one decision cycle: how many times `sync` was
invoked, and the argument list of each `wait_for_kworker` invocation. -/
structure Effects where
  syncs : Nat
  wait_calls : List ((ProcInfo → Bool) × Nat)

/-- The `is_kworker` closure built at the top of `workaround`:
root-owned (`uid == 0`) and name matching the configured glob. -/
def is_kworker (gm : String → String → Bool) (process_glob : String) (p : ProcInfo) : Bool :=
  p.uid == 0 && gm process_glob p.comm

/-- `workaround` from main.rs: one decision cycle.  Returns the
recommended delay (seconds) or an error, paired with the cycle's side
effects. -/
def workaround (system : System) (gm : String → String → Bool)
    (process_glob : String) (runtime_threshold : Int) :
    Except String Nat × Effects :=
  let isk := is_kworker gm process_glob
  match system.find_oldest_kworker isk with
  | .error e =>
    (.error ("failed to scan for matching kworker processes: " ++ e), ⟨0, []⟩)
  | .ok (some kworker) =>
    let now := system.now
    let oldest_runtime := now - kworker.starttime
    if oldest_runtime > runtime_threshold then
      (.ok EXPECTED_RECOVERY_TIME, ⟨1, []⟩)
    else
      (.ok BUSY_POLLING, ⟨0, []⟩)
  | .ok none =>
    match system.wait_for_kworker isk MAX_MONITOR_DURATION with
    | .error e =>
      (.error ("failed to wait for kworker process: " ++ e),
        ⟨0, [(isk, MAX_MONITOR_DURATION)]⟩)
    | .ok _ => (.ok 0, ⟨0, [(isk, MAX_MONITOR_DURATION)]⟩)

/-- What one driver-loop iteration does with a cycle's outcome: whether
it logged an error, and how long it then sleeps. -/
structure DriverStep where
  logged_error : Bool
  slept : Nat
  deriving DecidableEq

/-- The `match` in `main`'s loop body: sleep the returned duration on
success; log and sleep `IDLE_POLLING` on error. -/
def driver_iteration (outcome : Except String Nat) : DriverStep :=
  match outcome with
  | .ok duration => ⟨false, duration⟩
  | .error _ => ⟨true, IDLE_POLLING⟩

/-- A run of the driver loop over a sequence of per-cycle environments:
each iteration runs one decision cycle and applies the error policy. -/
def main_loop (envs : List System) (gm : String → String → Bool)
    (process_glob : String) (runtime_threshold : Int) : List DriverStep :=
  envs.map fun system =>
    driver_iteration (workaround system gm process_glob runtime_threshold).fst

/-- `n` consecutive invocations of the decision cycle against an
unchanged system, collecting each invocation's outcome and effects. -/
def run_repeated (system : System) (gm : String → String → Bool)
    (process_glob : String) (runtime_threshold : Int) :
    Nat → List (Except String Nat × Effects)
  | 0 => []
  | n + 1 =>
    workaround system gm process_glob runtime_threshold ::
      run_repeated system gm process_glob runtime_threshold n

/-- A glob matcher that accepts everything; stands in for the external
matcher in concrete witnesses. -/
def gm_any : String → String → Bool := fun _ _ => true

/-- A root-owned kworker that started at time 0. -/
def proc_old : ProcInfo := ⟨0, 0, "kworker/0:1"⟩

/-- A system whose scan finds `proc_old` and whose clock reads 40. -/
def sys_old : System := ⟨fun _ => .ok (some proc_old), 40, fun _ _ => .ok ()⟩

/-- A system whose scan finds `proc_old` and whose clock reads 10. -/
def sys_young : System := ⟨fun _ => .ok (some proc_old), 10, fun _ _ => .ok ()⟩

/-- A system whose scan finds nothing and whose wait succeeds. -/
def sys_none : System := ⟨fun _ => .ok none, 0, fun _ _ => .ok ()⟩

/-- A system whose scan finds nothing and whose wait fails. -/
def sys_wait_err : System := ⟨fun _ => .ok none, 0, fun _ _ => .error "channel closed"⟩

/-- A system whose scan itself fails. -/
def sys_scan_err : System := ⟨fun _ => .error "table unreadable", 0, fun _ _ => .ok ()⟩

/-- C1: when the oldest matching process exists and its elapsed age
(now minus start time) strictly exceeds the runtime threshold, the cycle
invokes sync exactly once, invokes no wait, and returns the recovery
pause interval, which is 30 seconds. -/
theorem workaround_above_threshold (system : System) (gm : String → String → Bool)
    (process_glob : String) (runtime_threshold : Int) (kworker : ProcInfo)
    (hfind : system.find_oldest_kworker (is_kworker gm process_glob) = .ok (some kworker))
    (hage : system.now - kworker.starttime > runtime_threshold) :
    workaround system gm process_glob runtime_threshold =
      (.ok EXPECTED_RECOVERY_TIME, ⟨1, []⟩) ∧ EXPECTED_RECOVERY_TIME = 30 := by
  refine ⟨?_, rfl⟩
  simp [workaround, hfind, hage]

/-- C1 witness: `sys_old` at threshold 30 with elapsed 40. -/
theorem workaround_above_threshold_witness :
    sys_old.find_oldest_kworker (is_kworker gm_any "kworker/*") = .ok (some proc_old) ∧
    sys_old.now - proc_old.starttime > (30 : Int) ∧
    (workaround sys_old gm_any "kworker/*" 30 = (.ok EXPECTED_RECOVERY_TIME, ⟨1, []⟩) ∧
      EXPECTED_RECOVERY_TIME = 30) :=
  ⟨rfl, by decide,
    workaround_above_threshold sys_old gm_any "kworker/*" 30 proc_old rfl (by decide)⟩

/-- C3: when the oldest matching process exists and its elapsed age is at
most the runtime threshold (equality included), sync is not invoked and
the busy-poll interval, 1 second, is returned. -/
theorem workaround_below_threshold (system : System) (gm : String → String → Bool)
    (process_glob : String) (runtime_threshold : Int) (kworker : ProcInfo)
    (hfind : system.find_oldest_kworker (is_kworker gm process_glob) = .ok (some kworker))
    (hage : system.now - kworker.starttime ≤ runtime_threshold) :
    workaround system gm process_glob runtime_threshold =
      (.ok BUSY_POLLING, ⟨0, []⟩) ∧ BUSY_POLLING = 1 := by
  refine ⟨?_, rfl⟩
  simp [workaround, hfind, not_lt.mpr hage]

/-- C3 witness: `sys_young` at threshold 30 with elapsed 10, and the
boundary case elapsed 40 at threshold 40. -/
theorem workaround_below_threshold_witness :
    (sys_young.find_oldest_kworker (is_kworker gm_any "kworker/*") = .ok (some proc_old) ∧
      sys_young.now - proc_old.starttime ≤ (30 : Int) ∧
      workaround sys_young gm_any "kworker/*" 30 = (.ok BUSY_POLLING, ⟨0, []⟩)) ∧
    (sys_old.now - proc_old.starttime ≤ (40 : Int) ∧
      workaround sys_old gm_any "kworker/*" 40 = (.ok BUSY_POLLING, ⟨0, []⟩)) :=
  ⟨⟨rfl, by decide,
      (workaround_below_threshold sys_young gm_any "kworker/*" 30 proc_old rfl (by decide)).1⟩,
    ⟨by decide,
      (workaround_below_threshold sys_old gm_any "kworker/*" 40 proc_old rfl (by decide)).1⟩⟩

/-- C4: when no process matches, sync is never invoked, the bounded wait
is invoked exactly once with the same predicate and the fixed safety-net
duration (60 seconds), and when it succeeds the cycle returns a zero
delay. -/
theorem workaround_no_match (system : System) (gm : String → String → Bool)
    (process_glob : String) (runtime_threshold : Int)
    (hfind : system.find_oldest_kworker (is_kworker gm process_glob) = .ok none)
    (hwait : system.wait_for_kworker (is_kworker gm process_glob) MAX_MONITOR_DURATION =
      .ok ()) :
    workaround system gm process_glob runtime_threshold =
      (.ok 0, ⟨0, [(is_kworker gm process_glob, MAX_MONITOR_DURATION)]⟩) ∧
    MAX_MONITOR_DURATION = 60 := by
  refine ⟨?_, rfl⟩
  simp [workaround, hfind, hwait]

/-- C4 witness: `sys_none` at threshold 30. -/
theorem workaround_no_match_witness :
    sys_none.find_oldest_kworker (is_kworker gm_any "kworker/*") = .ok none ∧
    sys_none.wait_for_kworker (is_kworker gm_any "kworker/*") MAX_MONITOR_DURATION = .ok () ∧
    (workaround sys_none gm_any "kworker/*" 30 =
        (.ok 0, ⟨0, [(is_kworker gm_any "kworker/*", MAX_MONITOR_DURATION)]⟩) ∧
      MAX_MONITOR_DURATION = 60) :=
  ⟨rfl, rfl, workaround_no_match sys_none gm_any "kworker/*" 30 rfl rfl⟩

/-- C6: when no process matches and the bounded wait fails, the cycle
returns an error whose context identifies the wait step, and sync is
never invoked. -/
theorem workaround_wait_error (system : System) (gm : String → String → Bool)
    (process_glob : String) (runtime_threshold : Int) (e : String)
    (hfind : system.find_oldest_kworker (is_kworker gm process_glob) = .ok none)
    (hwait : system.wait_for_kworker (is_kworker gm process_glob) MAX_MONITOR_DURATION =
      .error e) :
    workaround system gm process_glob runtime_threshold =
      (.error ("failed to wait for kworker process: " ++ e),
        ⟨0, [(is_kworker gm process_glob, MAX_MONITOR_DURATION)]⟩) := by
  simp [workaround, hfind, hwait]

/-- C6 witness: `sys_wait_err` at threshold 30. -/
theorem workaround_wait_error_witness :
    sys_wait_err.find_oldest_kworker (is_kworker gm_any "kworker/*") = .ok none ∧
    sys_wait_err.wait_for_kworker (is_kworker gm_any "kworker/*") MAX_MONITOR_DURATION =
      .error "channel closed" ∧
    workaround sys_wait_err gm_any "kworker/*" 30 =
      (.error ("failed to wait for kworker process: " ++ "channel closed"),
        ⟨0, [(is_kworker gm_any "kworker/*", MAX_MONITOR_DURATION)]⟩) :=
  ⟨rfl, rfl, workaround_wait_error sys_wait_err gm_any "kworker/*" 30 "channel closed" rfl rfl⟩

/-- C10: when the scan step itself fails, the cycle returns that error
(with context identifying the scan step) immediately: sync is never
invoked and the bounded wait is never invoked. -/
theorem workaround_scan_error (system : System) (gm : String → String → Bool)
    (process_glob : String) (runtime_threshold : Int) (e : String)
    (hfind : system.find_oldest_kworker (is_kworker gm process_glob) = .error e) :
    workaround system gm process_glob runtime_threshold =
      (.error ("failed to scan for matching kworker processes: " ++ e), ⟨0, []⟩) := by
  simp [workaround, hfind]

/-- C10 witness: `sys_scan_err` at threshold 30. -/
theorem workaround_scan_error_witness :
    sys_scan_err.find_oldest_kworker (is_kworker gm_any "kworker/*") =
      .error "table unreadable" ∧
    workaround sys_scan_err gm_any "kworker/*" 30 =
      (.error ("failed to scan for matching kworker processes: " ++ "table unreadable"),
        ⟨0, []⟩) :=
  ⟨rfl, workaround_scan_error sys_scan_err gm_any "kworker/*" 30 "table unreadable" rfl⟩

/-- C7: the decision cycle is a pure function of the system snapshot,
clock, glob and threshold: every invocation in a repeated run against an
unchanged system yields the same outcome and the same effects as a single
invocation — there is no hidden internal state. -/
theorem workaround_idempotent (system : System) (gm : String → String → Bool)
    (process_glob : String) (runtime_threshold : Int) (n : Nat) :
    ∀ x ∈ run_repeated system gm process_glob runtime_threshold n,
      x = workaround system gm process_glob runtime_threshold := by
  induction n with
  | zero => intro x hx; simp [run_repeated] at hx
  | succ n ih =>
    intro x hx
    rcases List.mem_cons.mp hx with h | h
    · exact h
    · exact ih x h

/-- C7 witness: two consecutive cycles against `sys_none` agree. -/
theorem workaround_idempotent_witness :
    workaround sys_none gm_any "kworker/*" 30 ∈
      run_repeated sys_none gm_any "kworker/*" 30 2 ∧
    workaround sys_none gm_any "kworker/*" 30 =
      workaround sys_none gm_any "kworker/*" 30 :=
  ⟨List.mem_cons_self _ _,
    workaround_idempotent sys_none gm_any "kworker/*" 30 2 _ (List.mem_cons_self _ _)⟩

/-- C9: the driver loop produces one step per cycle (it never crashes),
and every iteration whose decision cycle returns an error logs it and
sleeps the fixed idle back-off interval of 60 seconds — the same interval
at every error position, with no escalation. -/
theorem main_loop_error_backoff (envs : List System) (gm : String → String → Bool)
    (process_glob : String) (runtime_threshold : Int) :
    (main_loop envs gm process_glob runtime_threshold).length = envs.length ∧
    ∀ (i : Nat) (system : System), envs[i]? = some system →
      ∀ e, (workaround system gm process_glob runtime_threshold).fst = .error e →
        (main_loop envs gm process_glob runtime_threshold)[i]? =
          some ⟨true, IDLE_POLLING⟩ ∧ IDLE_POLLING = 60 := by
  refine ⟨by simp [main_loop], ?_⟩
  intro i system hi e he
  refine ⟨?_, rfl⟩
  simp [main_loop, List.getElem?_map, hi, he, driver_iteration]

/-- C9 witness: a two-cycle run where both cycles fail at the scan step
sleeps 60 seconds at both positions. -/
theorem main_loop_error_backoff_witness :
    ([sys_scan_err, sys_scan_err] : List System)[0]? = some sys_scan_err ∧
    (workaround sys_scan_err gm_any "kworker/*" 30).fst =
      .error "failed to scan for matching kworker processes: table unreadable" ∧
    (main_loop [sys_scan_err, sys_scan_err] gm_any "kworker/*" 30)[0]? =
      some ⟨true, IDLE_POLLING⟩ ∧
    (main_loop [sys_scan_err, sys_scan_err] gm_any "kworker/*" 30)[1]? =
      some ⟨true, IDLE_POLLING⟩ :=
  ⟨rfl, rfl,
    ((main_loop_error_backoff [sys_scan_err, sys_scan_err] gm_any "kworker/*" 30).2 0
      sys_scan_err rfl "failed to scan for matching kworker processes: table unreadable"
      rfl).1,
    ((main_loop_error_backoff [sys_scan_err, sys_scan_err] gm_any "kworker/*" 30).2 1
      sys_scan_err rfl "failed to scan for matching kworker processes: table unreadable"
      rfl).1⟩

/-- A fold step yields one of its two arguments. -/
theorem min_step_eq_or (best q : ProcInfo) : min_step best q = best ∨ min_step best q = q := by
  unfold min_step
  split
  · exact Or.inr rfl
  · exact Or.inl rfl

/-- The fold underlying `min_by_starttime` returns its seed or a list
element. -/
theorem foldl_min_step_mem (ps : List ProcInfo) :
    ∀ p : ProcInfo, List.foldl min_step p ps = p ∨ List.foldl min_step p ps ∈ ps := by
  induction ps with
  | nil => intro p; exact Or.inl rfl
  | cons q rest ih =>
    intro p
    rw [List.foldl_cons]
    rcases ih (min_step p q) with h | h
    · rcases min_step_eq_or p q with h2 | h2
      · exact Or.inl (h.trans h2)
      · right
        rw [h, h2]
        exact List.mem_cons_self q rest
    · exact Or.inr (List.mem_cons_of_mem q h)

/-- The fold underlying `min_by_starttime` returns an element whose start
time is a lower bound for the seed and for every list element. -/
theorem foldl_min_step_le (ps : List ProcInfo) :
    ∀ p : ProcInfo, (List.foldl min_step p ps).starttime ≤ p.starttime ∧
      ∀ q ∈ ps, (List.foldl min_step p ps).starttime ≤ q.starttime := by
  induction ps with
  | nil => intro p; exact ⟨le_refl _, by simp⟩
  | cons q rest ih =>
    intro p
    obtain ⟨h1, h2⟩ := ih (min_step p q)
    have hle : (min_step p q).starttime ≤ p.starttime ∧
        (min_step p q).starttime ≤ q.starttime := by
      unfold min_step
      split
      · exact ⟨le_of_lt (by assumption), le_refl _⟩
      · exact ⟨le_refl _, le_of_not_lt (by assumption)⟩
    rw [List.foldl_cons]
    refine ⟨le_trans h1 hle.1, ?_⟩
    intro r hr
    rcases List.mem_cons.mp hr with h | h
    · rw [h]
      exact le_trans h1 hle.2
    · exact h2 r h

/-- `min_by_starttime` returns `none` exactly on the empty list. -/
theorem min_by_starttime_eq_none (l : List ProcInfo) :
    min_by_starttime l = none ↔ l = [] := by
  cases l <;> simp [min_by_starttime]

/-- `min_by_starttime` returns an element of the list whose start time is
minimal. -/
theorem min_by_starttime_eq_some {l : List ProcInfo} {r : ProcInfo}
    (h : min_by_starttime l = some r) :
    r ∈ l ∧ ∀ q ∈ l, r.starttime ≤ q.starttime := by
  cases l with
  | nil => simp [min_by_starttime] at h
  | cons p ps =>
    simp only [min_by_starttime, Option.some.injEq] at h
    subst h
    obtain ⟨h1, h2⟩ := foldl_min_step_le ps p
    constructor
    · rcases foldl_min_step_mem ps p with h | h
      · rw [h]
        exact List.mem_cons_self p ps
      · exact List.mem_cons_of_mem p h
    · intro q hq
      rcases List.mem_cons.mp hq with h | h
      · rw [h]
        exact h1
      · exact h2 q h

/-- C5: on a successful enumeration, the scan returns `none` exactly when
no readable record satisfies the predicate, and otherwise returns a
satisfying readable record whose start time is least among all satisfying
readable records (oldest-wins). -/
theorem find_oldest_kworker_min (table : List (Except String Process))
    (isk : ProcInfo → Bool) :
    (LiveSystem.find_oldest_kworker (.ok table) isk = .ok none ↔
      ∀ r ∈ readable table, isk r = false) ∧
    ∀ r, LiveSystem.find_oldest_kworker (.ok table) isk = .ok (some r) →
      isk r = true ∧ r ∈ readable table ∧
        ∀ q ∈ readable table, isk q = true → r.starttime ≤ q.starttime := by
  have hrfl : LiveSystem.find_oldest_kworker (.ok table) isk =
      .ok (min_by_starttime ((readable table).filter isk)) := rfl
  constructor
  · rw [hrfl]
    simp only [Except.ok.injEq]
    rw [min_by_starttime_eq_none, List.filter_eq_nil_iff]
    simp [Bool.not_eq_true]
  · intro r h
    rw [hrfl] at h
    simp only [Except.ok.injEq] at h
    obtain ⟨hmem, hle⟩ := min_by_starttime_eq_some h
    obtain ⟨hr, hk⟩ := List.mem_filter.mp hmem
    refine ⟨hk, hr, ?_⟩
    intro q hq hq2
    exact hle q (List.mem_filter.mpr ⟨hq, hq2⟩)

/-- A two-entry process table whose both entries are readable. -/
def table_two : List (Except String Process) :=
  [.ok ⟨some ⟨"kworker/u8:1", some 5⟩, some 0⟩, .ok ⟨some ⟨"kworker/u8:2", some 3⟩, some 0⟩]

/-- The record of the first entry of `table_two`. -/
def rec_late : ProcInfo := ⟨0, 5, "kworker/u8:1"⟩

/-- The record of the second entry of `table_two`: the older one. -/
def rec_early : ProcInfo := ⟨0, 3, "kworker/u8:2"⟩

/-- The predicate used in concrete scan witnesses: root-owned. -/
def isk_root : ProcInfo → Bool := fun p => p.uid == 0

/-- C5 witness: on `table_two` the scan returns the record with the
smaller start time, which satisfies the predicate, is readable, and is no
younger than the other readable match. -/
theorem find_oldest_kworker_min_witness :
    LiveSystem.find_oldest_kworker (.ok table_two) isk_root = .ok (some rec_early) ∧
    isk_root rec_early = true ∧ rec_early ∈ readable table_two ∧
    rec_early.starttime ≤ rec_late.starttime :=
  ⟨rfl, ((find_oldest_kworker_min table_two isk_root).2 rec_early rfl).1,
    ((find_oldest_kworker_min table_two isk_root).2 rec_early rfl).2.1,
    ((find_oldest_kworker_min table_two isk_root).2 rec_early rfl).2.2 rec_late
      (by decide) rfl⟩

/-- Readable records distribute over table concatenation. -/
theorem readable_append (l1 l2 : List (Except String Process)) :
    readable (l1 ++ l2) = readable l1 ++ readable l2 := by
  simp [readable, List.filterMap_append]

/-- A table entry that cannot be read contributes no readable record. -/
theorem readable_cons_bad (bad : Except String Process)
    (hbad : (exceptOk bad).bind to_proc_info = none) (l : List (Except String Process)) :
    readable (bad :: l) = readable l := by
  cases hb : exceptOk bad with
  | none => simp [readable, List.filterMap_cons, hb]
  | some p =>
    rw [hb] at hbad
    simp only [Option.some_bind] at hbad
    simp [readable, List.filterMap_cons, hb, hbad]

/-- C8: a table entry whose handle or metadata cannot be read is silently
skipped — inserting it anywhere leaves the scan result computed from the
remaining entries unchanged — while a failure of the enumeration itself
is returned as a scan error. -/
theorem find_oldest_kworker_skips_unreadable (t1 t2 : List (Except String Process))
    (bad : Except String Process) (hbad : (exceptOk bad).bind to_proc_info = none)
    (isk : ProcInfo → Bool) (e : String) :
    LiveSystem.find_oldest_kworker (.ok (t1 ++ bad :: t2)) isk =
      LiveSystem.find_oldest_kworker (.ok (t1 ++ t2)) isk ∧
    LiveSystem.find_oldest_kworker (.error e) isk =
      .error ("failed to list all processes: " ++ e) := by
  constructor
  · show Except.ok (min_by_starttime ((readable (t1 ++ bad :: t2)).filter isk)) =
      Except.ok (min_by_starttime ((readable (t1 ++ t2)).filter isk))
    rw [readable_append, readable_cons_bad bad hbad, ← readable_append]
  · rfl

/-- C8 witness: a mid-scan-exited entry (enumeration item error) and an
entry whose stat read fails both leave the scan of `table_two` unchanged;
an unreadable table yields the scan error. -/
theorem find_oldest_kworker_skips_unreadable_witness :
    ((exceptOk (Except.error "process exited" : Except String Process)).bind to_proc_info =
      none) ∧
    LiveSystem.find_oldest_kworker
        (.ok ([table_two.head!] ++ Except.error "process exited" :: [table_two.get! 1]))
        isk_root =
      LiveSystem.find_oldest_kworker (.ok ([table_two.head!] ++ [table_two.get! 1]))
        isk_root ∧
    LiveSystem.find_oldest_kworker (.ok (Except.ok ⟨none, some 0⟩ :: table_two)) isk_root =
      LiveSystem.find_oldest_kworker (.ok table_two) isk_root ∧
    LiveSystem.find_oldest_kworker (.error "table unreadable") isk_root =
      .error ("failed to list all processes: " ++ "table unreadable") :=
  ⟨rfl,
    (find_oldest_kworker_skips_unreadable [table_two.head!] [table_two.get! 1]
      (Except.error "process exited") rfl isk_root "table unreadable").1,
    (find_oldest_kworker_skips_unreadable [] table_two (Except.ok ⟨none, some 0⟩) rfl
      isk_root "table unreadable").1,
    (find_oldest_kworker_skips_unreadable [] table_two (Except.ok ⟨none, some 0⟩) rfl
      isk_root "table unreadable").2⟩

/-- C2 counterexample: the monitor is created successfully and the
subscription never errors, but no event ever arrives (the first receive
blocks forever).  The elapsed check sits before the blocking receive and
the receive has no timeout of its own, so the call never returns — in
particular it does not return success once the maximum duration (5) has
elapsed. -/
theorem wait_for_kworker_counterexample :
    no_recv_error [⟨0, none⟩] = true ∧
    LiveSystem.wait_for_kworker (.ok ()) (fun _ => none) (fun _ => false) 5 [⟨0, none⟩] =
      none ∧
    LiveSystem.wait_for_kworker (.ok ()) (fun _ => none) (fun _ => false) 5 [⟨0, none⟩] ≠
      some (.ok ()) := by
  refine ⟨rfl, rfl, ?_⟩
  intro h
  rw [show LiveSystem.wait_for_kworker (.ok ()) (fun _ => none) (fun _ => false) 5
    [⟨0, none⟩] = none from rfl] at h
  exact Option.noConfusion h

/-- Behaviour of the receive loop on traces without a channel error: it
never returns a failure, and at any iteration whose loop-top elapsed
time has reached the timeout it returns success immediately. -/
theorem wait_loop_no_failure (lookup : Int → Option Process)
    (isk : ProcInfo → Bool) (timeout : Nat) (steps : List MonitorStep)
    (hok : no_recv_error steps = true) :
    (LiveSystem.wait_loop lookup isk timeout steps = none ∨
      LiveSystem.wait_loop lookup isk timeout steps = some (.ok ())) ∧
    ∀ s rest, steps = s :: rest → timeout ≤ s.elapsed →
      LiveSystem.wait_loop lookup isk timeout steps = some (.ok ()) := by
  induction steps with
  | nil =>
    refine ⟨Or.inl rfl, ?_⟩
    intro s rest h
    exact absurd h (by simp)
  | cons s rest ih =>
    simp only [no_recv_error, List.all_cons, Bool.and_eq_true] at hok
    have hok2 : no_recv_error rest = true := hok.2
    have hs : ∀ e, s.recv ≠ some (.error e) := by
      intro e he
      have h1 := hok.1
      rw [he] at h1
      exact Bool.false_ne_true h1
    by_cases ht : timeout ≤ s.elapsed
    · have heq : LiveSystem.wait_loop lookup isk timeout (s :: rest) =
          some (.ok ()) := by
        simp [LiveSystem.wait_loop, ht]
      exact ⟨Or.inr heq, fun _ _ _ _ => heq⟩
    · refine ⟨?_, ?_⟩
      · cases hr : s.recv with
        | none => exact Or.inl (by simp [LiveSystem.wait_loop, ht, hr])
        | some res =>
          cases res with
          | error e => exact absurd hr (hs e)
          | ok ev =>
            cases hp : event_pid ev with
            | none =>
              have heq : LiveSystem.wait_loop lookup isk timeout (s :: rest) =
                  LiveSystem.wait_loop lookup isk timeout rest := by
                simp [LiveSystem.wait_loop, ht, hr, hp]
              rw [heq]
              exact (ih hok2).1
            | some pid =>
              by_cases hk : resolves_to_kworker lookup isk pid = true
              · exact Or.inr (by simp [LiveSystem.wait_loop, ht, hr, hp, hk])
              · have heq : LiveSystem.wait_loop lookup isk timeout (s :: rest) =
                    LiveSystem.wait_loop lookup isk timeout rest := by
                  simp [LiveSystem.wait_loop, ht, hr, hp, hk]
                rw [heq]
                exact (ih hok2).1
      · intro s2 rest2 hcons hle
        have hss : s = s2 := (List.cons.inj hcons).1
        rw [← hss] at hle
        exact absurd hle ht

/-- C2 (amended): when the event monitor is created successfully and
every receive completes without a channel error, the bounded wait
returns success both when a matching event arrives and when, at the top
of a loop iteration (at entry or after a received event), it observes
that the maximum duration has elapsed — but it may fail to return at
all: the elapsed-time check happens only at those points and the receive
blocks with no timeout of its own, so when no further events arrive the
call blocks indefinitely and need not return once the maximum duration
has elapsed.  At any iteration whose loop-top elapsed time has reached
the maximum duration it returns success immediately. -/
theorem wait_for_kworker_no_failure (monitor : Except String Unit)
    (lookup : Int → Option Process) (isk : ProcInfo → Bool) (timeout : Nat)
    (steps : List MonitorStep) (hmon : monitor = .ok ())
    (hok : no_recv_error steps = true) :
    (LiveSystem.wait_for_kworker monitor lookup isk timeout steps = none ∨
      LiveSystem.wait_for_kworker monitor lookup isk timeout steps = some (.ok ())) ∧
    ∀ s rest, steps = s :: rest → timeout ≤ s.elapsed →
      LiveSystem.wait_for_kworker monitor lookup isk timeout steps = some (.ok ()) := by
  subst hmon
  show (LiveSystem.wait_loop lookup isk timeout steps = none ∨
      LiveSystem.wait_loop lookup isk timeout steps = some (.ok ())) ∧
    ∀ s rest, steps = s :: rest → timeout ≤ s.elapsed →
      LiveSystem.wait_loop lookup isk timeout steps = some (.ok ())
  exact wait_loop_no_failure lookup isk timeout steps hok

/-- C2 (amended) witness: monitor creation succeeds and the first
loop-top elapsed time is past the maximum duration, so the wait returns
success even though no matching event ever arrives. -/
theorem wait_for_kworker_no_failure_witness :
    (Except.ok () : Except String Unit) = .ok () ∧
    no_recv_error [⟨7, none⟩] = true ∧
    LiveSystem.wait_for_kworker (.ok ()) (fun _ => none) (fun _ => false) 5 [⟨7, none⟩] =
      some (.ok ()) :=
  ⟨rfl, rfl,
    (wait_for_kworker_no_failure (.ok ()) (fun _ => none) (fun _ => false) 5 [⟨7, none⟩]
      rfl rfl).2 ⟨7, none⟩ [] rfl (by decide)⟩
